import Mathlib

/-!
Shallow embedding of `go-CA` (`src/main.go`), a minimal Go tool that issues a
self-signed X.509 root certificate authority.

The Go program calls into the Go standard library for every cryptographic and
I/O primitive (`rsa.GenerateKey`, `rand.Int`, `x509.CreateCertificate`,
`x509.MarshalPKCS8PrivateKey`, `pem.EncodeToMemory`, `os.WriteFile`,
`os.MkdirAll`).  These external calls are modelled by an environment `Env`
that supplies their nondeterministic outcomes (entropy, success or failure),
together with executable models of their documented contracts.  Byte strings
produced by DER serialisation are abstracted by their parsed content
(`DERBytes`), which preserves exactly the information the program's data flow
carries through them.
-/

/-- Go `time.Time`, abstracted to a count of calendar days.  The program's only
time arithmetic is `time.Time.AddDate(0, 0, days)` (main.go:175), which moves a
time by exactly `days` calendar days, so day granularity is sufficient. -/
abbrev GoTime := Int

/-- Models `time.Time.AddDate(0, 0, days)` as used at main.go:175: adding
`days` calendar days. -/
def GoTime.addDays (t : GoTime) (days : Int) : GoTime := t + days

/-- Go errors, abstracted to their message strings. -/
abbrev GoError := String

/-- `CAConfig` (main.go:31-38): configuration parameters for the root CA. -/
structure CAConfig where
  commonName : String
  organization : String
  validityDays : Int
  keyBitSize : Int
  certOutputFile : String
  keyOutputFile : String
deriving Repr, DecidableEq, Inhabited

/-- `pkix.Name`, restricted to the fields the program sets
(main.go:179-186): CommonName and Organization. -/
structure PkixName where
  commonName : String
  organization : List String
deriving Repr, DecidableEq, Inhabited

/-- An RSA key pair, abstracted to opaque identifiers for its public and
private halves plus its bit size.  (`pub` stands for `key.PublicKey`.) -/
structure RSAPrivateKey where
  pub : Nat
  priv : Nat
  bits : Int
deriving Repr, DecidableEq, Inhabited

/-- The fields of `x509.Certificate` that the program's template sets
(main.go:177-204). -/
structure Certificate where
  serialNumber : Nat
  subject : PkixName
  issuer : PkixName
  notBefore : GoTime
  notAfter : GoTime
  keyUsage : Nat
  extKeyUsage : List Nat
  basicConstraintsValid : Bool
  isCA : Bool
  maxPathLen : Int
  maxPathLenZero : Bool
deriving Repr, DecidableEq, Inhabited

/-- Go `x509.KeyUsageCertSign` (bit 5 of the KeyUsage bit set). -/
def keyUsageCertSign : Nat := 1 <<< 5

/-- Go `x509.KeyUsageCRLSign` (bit 6 of the KeyUsage bit set). -/
def keyUsageCRLSign : Nat := 1 <<< 6

/-- A certificate as issued by `x509.CreateCertificate`: the template fields
together with the embedded public key and the signature.  The signature of an
X.509 certificate verifies under a public key exactly when that key matches
the signing private key; it is therefore abstracted by `signerPub`, the public
half of the key that produced it. -/
structure SignedCertificate where
  serialNumber : Nat
  subject : PkixName
  issuer : PkixName
  notBefore : GoTime
  notAfter : GoTime
  keyUsage : Nat
  extKeyUsage : List Nat
  basicConstraintsValid : Bool
  isCA : Bool
  maxPathLen : Int
  maxPathLenZero : Bool
  publicKey : Nat
  signerPub : Nat
deriving Repr, DecidableEq, Inhabited

/-- Signature verification: the certificate's signature verifies under `pub`
exactly when `pub` is the public half of the signing key. -/
def verifySignature (c : SignedCertificate) (pub : Nat) : Bool :=
  c.signerPub == pub

/-- DER-encoded byte strings, abstracted by their parsed content: either the
DER of an issued certificate or the PKCS#8 DER of a private key. -/
inductive DERBytes where
  | cert (c : SignedCertificate)
  | pkcs8 (k : RSAPrivateKey)
deriving Repr, DecidableEq, Inhabited

/-- Models `x509.MarshalPKCS8PrivateKey` on the success path: the PKCS#8 DER
encoding of the key. -/
def marshalPKCS8PrivateKey (k : RSAPrivateKey) : DERBytes :=
  DERBytes.pkcs8 k

/-- `pem.Block` (the fields the program sets: Type and Bytes; Headers is left
empty by both call sites, main.go:229-232 and main.go:247-250). -/
structure PEMBlock where
  type : String
  headers : List (String × String)
  bytes : DERBytes
deriving Repr, DecidableEq, Inhabited

/-- Models `pem.EncodeToMemory`: returns `none` exactly when the underlying
`pem.Encode` rejects the block, which happens when a header key contains a
colon or a header value contains a newline; otherwise the encoded output,
abstracted by the block itself.  A block without headers always encodes. -/
def pemEncodeToMemory (b : PEMBlock) : Option PEMBlock :=
  if b.headers.any (fun kv => kv.1.contains ':' || kv.2.contains '\n') then
    none
  else
    some b

/-- One successful `os.WriteFile` call: destination path, file content, and
permission mode. -/
structure FileWrite where
  path : String
  content : PEMBlock
  perm : Nat
deriving Repr, DecidableEq, Inhabited

/-- Outcomes of the external (standard library) calls the program makes.  Each
field fixes, for one run, what the corresponding fallible or random primitive
does. -/
structure Env where
  /-- `rsa.GenerateKey(rand.Reader, bits)`: the generated key, or `none` on
  failure. -/
  rsaGenerateKey : Int → Option RSAPrivateKey
  /-- Whether `rand.Int(rand.Reader, serialNumberLimit)` fails. -/
  serialGenFails : Bool
  /-- The entropy consumed by `rand.Int` on success; `rand.Int` returns a
  uniform value in `[0, limit)`, modelled as `entropy % limit`. -/
  serialEntropy : Nat
  /-- `time.Now()`. -/
  now : GoTime
  /-- Whether `x509.CreateCertificate` fails. -/
  createCertFails : Bool
  /-- Whether re-parsing the created certificate with `x509.ParseCertificate`
  fails. -/
  parseFails : Bool
  /-- Whether `x509.MarshalPKCS8PrivateKey` fails. -/
  marshalPKCS8Fails : Bool
  /-- Whether `os.WriteFile` at a given path succeeds. -/
  writeFileOk : String → Bool
  /-- Whether `os.MkdirAll` on the output directory succeeds. -/
  mkdirOk : Bool

/-- Models `rand.Int(rand.Reader, limit)`: a uniformly random integer in
`[0, limit)`, as a function of the entropy consumed. -/
def randIntBelow (limit : Nat) (entropy : Nat) : Nat :=
  entropy % limit

/-- `serialNumberLimit` (main.go:168): `new(big.Int).Lsh(big.NewInt(1), 128)`,
i.e. `1 << 128`. -/
def serialNumberLimit : Nat := 1 <<< 128

/-- The certificate template literal of main.go:177-204, as a function of the
configuration, the generated serial number and the current time. -/
def caTemplate (config : CAConfig) (serialNumber : Nat) (notBefore : GoTime) :
    Certificate :=
  { serialNumber := serialNumber
    subject :=
      { commonName := config.commonName
        organization := [config.organization] }
    -- Self-signed, Issuer == Subject (main.go:183-186)
    issuer :=
      { commonName := config.commonName
        organization := [config.organization] }
    notBefore := notBefore
    notAfter := notBefore.addDays config.validityDays
    keyUsage := Nat.lor keyUsageCertSign keyUsageCRLSign
    extKeyUsage := []
    basicConstraintsValid := true
    isCA := true
    maxPathLen := 1
    maxPathLenZero := false }

/-- Models `x509.CreateCertificate(rand, template, parent, pub, priv)`
per its documented behaviour: the issued certificate takes its fields from
`template`, except that its issuer is the parent certificate's subject; it
embeds the public key `pub` and is signed with `signer`, so its signature
verifies under `signer.pub`.  Returns `none` when the call fails. -/
def createCertificate (env : Env) (template parent : Certificate) (pub : Nat)
    (signer : RSAPrivateKey) : Option SignedCertificate :=
  if env.createCertFails then
    none
  else
    some
      { serialNumber := template.serialNumber
        subject := template.subject
        issuer := parent.subject
        notBefore := template.notBefore
        notAfter := template.notAfter
        keyUsage := template.keyUsage
        extKeyUsage := template.extKeyUsage
        basicConstraintsValid := template.basicConstraintsValid
        isCA := template.isCA
        maxPathLen := template.maxPathLen
        maxPathLenZero := template.maxPathLenZero
        publicKey := pub
        signerPub := signer.pub }

/-- `GenerateRootCA` (main.go:157-223).  Returns the Go triple
`(certBytes, key, err)`; the DER `certBytes` are abstracted by the issued
certificate.  Every error branch of the Go function returns
`nil, nil, err`. -/
def GenerateRootCA (config : CAConfig) (env : Env) :
    Option SignedCertificate × Option RSAPrivateKey × Option GoError :=
  -- 1. Generate RSA Private Key (main.go:160-164)
  match env.rsaGenerateKey config.keyBitSize with
  | none => (none, none, some "failed to generate RSA key")
  | some privateKey =>
    -- 2. Create Certificate Template (main.go:168-204)
    if env.serialGenFails then
      (none, none, some "failed to generate serial number")
    else
      let serialNumber := randIntBelow serialNumberLimit env.serialEntropy
      let notBefore := env.now
      let template := caTemplate config serialNumber notBefore
      -- 3. Create (Self-Sign) the Certificate (main.go:211-214): the
      -- template is passed as both the template and the parent, and the key
      -- pair's public half as the embedded public key.
      match createCertificate env template template privateKey.pub privateKey with
      | none => (none, none, some "failed to create certificate")
      | some cert =>
        -- Optional parse check (main.go:217-220)
        if env.parseFails then
          (none, none, some "failed to parse generated certificate")
        else
          (some cert, some privateKey, none)

/-- `ExportToPEM` (main.go:226-260).  Returns the list of successful file
writes it performed, in order, together with the Go error value. -/
def ExportToPEM (certBytes : SignedCertificate) (privateKey : RSAPrivateKey)
    (certPath keyPath : String) (env : Env) :
    List FileWrite × Option GoError :=
  -- 1. Encode Certificate to PEM (main.go:229-239)
  match pemEncodeToMemory
      { type := "CERTIFICATE", headers := [], bytes := DERBytes.cert certBytes } with
  | none => ([], some "failed to encode certificate to PEM")
  | some certPEM =>
    if env.writeFileOk certPath then
      let w1 : FileWrite := { path := certPath, content := certPEM, perm := 0o644 }
      -- 2. Encode Private Key to PEM (using PKCS#8) (main.go:243-257)
      if env.marshalPKCS8Fails then
        ([w1], some "failed to marshal private key to PKCS#8")
      else
        match pemEncodeToMemory
            { type := "PRIVATE KEY", headers := [],
              bytes := marshalPKCS8PrivateKey privateKey } with
        | none => ([w1], some "failed to encode private key to PEM")
        | some keyPEM =>
          if env.writeFileOk keyPath then
            ([w1, { path := keyPath, content := keyPEM, perm := 0o600 }], none)
          else
            ([w1], some "failed to write private key PEM file")
    else
      ([], some "failed to write certificate PEM file")

/-- Observable side effects of a run of `main`. -/
inductive Effect where
  | mkdir (path : String)
  | genKey
  | writeFile (path : String) (perm : Nat)
deriving Repr, DecidableEq

/-- Models `filepath.Join(dir, name)` as used at main.go:104-105. -/
def filepathJoin (dir name : String) : String :=
  dir ++ "/" ++ name

/-- `main` (main.go:40-139) from the point where the configuration is
resolved (flags parsed and interactive prompts answered, main.go:77) onward:
the empty-CommonName check, the validity check, directory creation,
generation and export.  Returns the effect trace of the run and the fatal
error, if any (`log.Fatal` terminates the program). -/
def mainRun (config : CAConfig) (outputDir certFileName keyFileName : String)
    (env : Env) : List Effect × Option GoError :=
  if config.commonName = "" then
    ([], some "Error: Common Name cannot be empty.")
  -- Validate Validity Days (main.go:99-101)
  else if config.validityDays ≤ 0 then
    ([], some "Error: Validity days must be positive.")
  else
    let certPath := filepathJoin outputDir certFileName
    let keyPath := filepathJoin outputDir keyFileName
    -- Ensure output directory exists (main.go:108-110)
    if env.mkdirOk then
      -- Generation (main.go:123-126); rsa.GenerateKey is its first step
      match GenerateRootCA config env with
      | (_, _, some e) =>
        ([Effect.mkdir outputDir, Effect.genKey], some e)
      | (some certBytes, some privateKey, none) =>
        -- Export (main.go:131-134)
        let r := ExportToPEM certBytes privateKey certPath keyPath env
        ([Effect.mkdir outputDir, Effect.genKey]
            ++ r.1.map (fun w => Effect.writeFile w.path w.perm),
          r.2)
      | _ => ([Effect.mkdir outputDir, Effect.genKey], some "unreachable")
    else
      ([Effect.mkdir outputDir], some "Error creating output directory")

/-! ### Concrete fixtures for witnesses -/

/-- A concrete key pair for concrete runs. -/
def testKey : RSAPrivateKey := { pub := 10, priv := 11, bits := 2048 }

/-- An environment in which every external call succeeds. -/
def testEnv : Env :=
  { rsaGenerateKey := fun _ => some testKey
    serialGenFails := false
    serialEntropy := 5
    now := 20000
    createCertFails := false
    parseFails := false
    marshalPKCS8Fails := false
    writeFileOk := fun _ => true
    mkdirOk := true }

/-- An environment in which RSA key generation fails. -/
def failKeyEnv : Env := { testEnv with rsaGenerateKey := fun _ => none }

/-- A concrete configuration. -/
def testConfig : CAConfig :=
  { commonName := "My Test CA"
    organization := "Test Org"
    validityDays := 365
    keyBitSize := 2048
    certOutputFile := "./ca.crt"
    keyOutputFile := "./ca.key" }

/-- The certificate produced by the concrete successful run. -/
def testCert : SignedCertificate :=
  ((GenerateRootCA testConfig testEnv).1).getD default

/-- The first file write of the concrete successful export. -/
def testWrite : FileWrite :=
  ((ExportToPEM testCert testKey "d/ca.crt" "d/ca.key" testEnv).1).headD default

/-- `testConfig` with a non-positive validity period. -/
def badConfig : CAConfig := { testConfig with validityDays := 0 }

/-! ### Helper lemmas -/

/-- On a successful run, `GenerateRootCA` returns the key delivered by RSA key
generation and the certificate obtained by self-signing the template built
from the generated serial number and the current time. -/
theorem generateRootCA_success (config : CAConfig) (env : Env)
    (c : SignedCertificate) (k : Option RSAPrivateKey)
    (h : GenerateRootCA config env = (some c, k, none)) :
    ∃ pk, env.rsaGenerateKey config.keyBitSize = some pk ∧ k = some pk ∧
      c = { serialNumber := randIntBelow serialNumberLimit env.serialEntropy
            subject :=
              { commonName := config.commonName
                organization := [config.organization] }
            issuer :=
              { commonName := config.commonName
                organization := [config.organization] }
            notBefore := env.now
            notAfter := GoTime.addDays env.now config.validityDays
            keyUsage := Nat.lor keyUsageCertSign keyUsageCRLSign
            extKeyUsage := []
            basicConstraintsValid := true
            isCA := true
            maxPathLen := 1
            maxPathLenZero := false
            publicKey := pk.pub
            signerPub := pk.pub } := by
  cases hk : env.rsaGenerateKey config.keyBitSize with
  | none => rw [GenerateRootCA, hk] at h; simp at h
  | some pk =>
    refine ⟨pk, rfl, ?_⟩
    rw [GenerateRootCA, hk] at h
    by_cases hs : env.serialGenFails = true
    · simp [hs] at h
    · by_cases hc : env.createCertFails = true
      · simp [hs, hc, createCertificate] at h
      · by_cases hp : env.parseFails = true
        · simp [hs, hc, hp, createCertificate] at h
        · simp [hs, hc, hp, createCertificate, caTemplate] at h
          exact ⟨h.2.symm, h.1.symm⟩

/-! ### Claim theorems -/

/-- C1: The certificate produced by `GenerateRootCA` is self-signed: the
template (passed to `x509.CreateCertificate` as both template and parent) has
Issuer equal to Subject, and on every successful run the issued certificate's
issuer equals its subject and its signature verifies under its own embedded
public key. -/
theorem generateRootCA_self_signed (config : CAConfig) (env : Env)
    (c : SignedCertificate) (k : Option RSAPrivateKey)
    (h : GenerateRootCA config env = (some c, k, none)) :
    (∀ serial t, (caTemplate config serial t).issuer = (caTemplate config serial t).subject)
    ∧ c.issuer = c.subject
    ∧ verifySignature c c.publicKey = true := by
  obtain ⟨pk, hk, hkk, hc⟩ := generateRootCA_success config env c k h
  subst hc
  exact ⟨fun _ _ => rfl, rfl, by simp [verifySignature]⟩

/-- Witness for C1: the concrete successful run yields a certificate whose
issuer equals its subject and whose signature verifies under its own key. -/
theorem generateRootCA_self_signed_witness :
    testCert.issuer = testCert.subject
    ∧ verifySignature testCert testCert.publicKey = true :=
  (generateRootCA_self_signed testConfig testEnv testCert (some testKey) (by rfl)).2

/-- C2: For every input configuration (and serial number and time), the
certificate template is marked as a CA: `IsCA = true`,
`BasicConstraintsValid = true`, `KeyUsage` is exactly the union of
`KeyUsageCertSign` and `KeyUsageCRLSign`, and no extended key usages are
set. -/
theorem caTemplate_marked_as_CA (config : CAConfig) (serial : Nat) (t : GoTime) :
    (caTemplate config serial t).isCA = true
    ∧ (caTemplate config serial t).basicConstraintsValid = true
    ∧ (caTemplate config serial t).keyUsage = Nat.lor keyUsageCertSign keyUsageCRLSign
    ∧ (caTemplate config serial t).extKeyUsage = [] := by
  simp [caTemplate]

/-- C3: On every successful run of `GenerateRootCA`, the certificate's serial
number lies in the range `0 ≤ serial < 2^128`. -/
theorem generateRootCA_serial_range (config : CAConfig) (env : Env)
    (c : SignedCertificate) (k : Option RSAPrivateKey)
    (h : GenerateRootCA config env = (some c, k, none)) :
    0 ≤ c.serialNumber ∧ c.serialNumber < 2 ^ 128 := by
  obtain ⟨pk, hk, hkk, hc⟩ := generateRootCA_success config env c k h
  subst hc
  refine ⟨Nat.zero_le _, ?_⟩
  show randIntBelow serialNumberLimit env.serialEntropy < 2 ^ 128
  have hl : serialNumberLimit = 2 ^ 128 := by
    rw [serialNumberLimit, Nat.shiftLeft_eq, one_mul]
  rw [randIntBelow, hl]
  exact Nat.mod_lt _ (by positivity)

/-- Witness for C3: the concrete successful run's serial number is in
range. -/
theorem generateRootCA_serial_range_witness :
    0 ≤ testCert.serialNumber ∧ testCert.serialNumber < 2 ^ 128 :=
  generateRootCA_serial_range testConfig testEnv testCert (some testKey) (by rfl)

/-- C4: On every successful run, the validity window starts at the time of
generation (`NotBefore = time.Now()`) and ends exactly `ValidityDays` calendar
days later (`NotAfter = NotBefore.AddDate(0, 0, ValidityDays)`), so the
certificate is valid for exactly `ValidityDays` days from generation. -/
theorem generateRootCA_validity_window (config : CAConfig) (env : Env)
    (c : SignedCertificate) (k : Option RSAPrivateKey)
    (h : GenerateRootCA config env = (some c, k, none)) :
    c.notBefore = env.now
    ∧ c.notAfter = c.notBefore.addDays config.validityDays
    ∧ c.notAfter - c.notBefore = config.validityDays := by
  obtain ⟨pk, hk, hkk, hc⟩ := generateRootCA_success config env c k h
  subst hc
  refine ⟨rfl, rfl, ?_⟩
  show GoTime.addDays env.now config.validityDays - env.now = config.validityDays
  simp [GoTime.addDays]

/-- Witness for C4: the concrete successful run's validity window. -/
theorem generateRootCA_validity_window_witness :
    testCert.notBefore = testEnv.now
    ∧ testCert.notAfter = testCert.notBefore.addDays testConfig.validityDays
    ∧ testCert.notAfter - testCert.notBefore = testConfig.validityDays :=
  generateRootCA_validity_window testConfig testEnv testCert (some testKey) (by rfl)

/-- C9: For every input configuration, the certificate template sets
`MaxPathLen = 1` and `MaxPathLenZero = false`, permitting intermediate CAs of
depth at most 1. -/
theorem caTemplate_maxPathLen_one (config : CAConfig) (serial : Nat) (t : GoTime) :
    (caTemplate config serial t).maxPathLen = 1
    ∧ (caTemplate config serial t).maxPathLenZero = false :=
  ⟨rfl, rfl⟩

/-- C5: On every run on which `ExportToPEM` returns nil, it wrote exactly two
files: the DER certificate bytes at `certPath` as a single PEM block of type
CERTIFICATE (mode 0644), and the PKCS#8 marshalling of the private key at
`keyPath` as a single PEM block of type PRIVATE KEY (mode 0600); and nil is
returned only if both writes succeeded. -/
theorem exportToPEM_writes_both_artifacts (certBytes : SignedCertificate)
    (privateKey : RSAPrivateKey) (certPath keyPath : String) (env : Env)
    (h : (ExportToPEM certBytes privateKey certPath keyPath env).2 = none) :
    (ExportToPEM certBytes privateKey certPath keyPath env).1 =
      [{ path := certPath
         content :=
           { type := "CERTIFICATE", headers := [], bytes := DERBytes.cert certBytes }
         perm := 0o644 },
       { path := keyPath
         content :=
           { type := "PRIVATE KEY", headers := [],
             bytes := marshalPKCS8PrivateKey privateKey }
         perm := 0o600 }]
    ∧ env.writeFileOk certPath = true ∧ env.writeFileOk keyPath = true := by
  by_cases h1 : env.writeFileOk certPath = true <;>
    by_cases hm : env.marshalPKCS8Fails = true <;>
    by_cases h2 : env.writeFileOk keyPath = true <;>
    simp [ExportToPEM, pemEncodeToMemory, h1, hm, h2] at h ⊢

/-- Witness for C5: in the all-succeeding environment both writes succeed. -/
theorem exportToPEM_writes_both_artifacts_witness :
    testEnv.writeFileOk "d/ca.crt" = true ∧ testEnv.writeFileOk "d/ca.key" = true :=
  (exportToPEM_writes_both_artifacts testCert testKey "d/ca.crt" "d/ca.key" testEnv
    (by rfl)).2

/-- C6: `GenerateRootCA` returns a non-nil error exactly when one of its
underlying steps (RSA key generation, serial-number generation, certificate
creation, or re-parsing the created certificate) fails; in every error case
both returned values are nil, and on nil error both are non-nil. -/
theorem generateRootCA_error_propagation (config : CAConfig) (env : Env) :
    ((GenerateRootCA config env).2.2 ≠ none ↔
      (env.rsaGenerateKey config.keyBitSize = none ∨ env.serialGenFails = true ∨
        env.createCertFails = true ∨ env.parseFails = true))
    ∧ ((GenerateRootCA config env).2.2 ≠ none →
        (GenerateRootCA config env).1 = none ∧ (GenerateRootCA config env).2.1 = none)
    ∧ ((GenerateRootCA config env).2.2 = none →
        (GenerateRootCA config env).1.isSome = true
        ∧ (GenerateRootCA config env).2.1.isSome = true) := by
  cases hk : env.rsaGenerateKey config.keyBitSize <;>
    by_cases hs : env.serialGenFails = true <;>
    by_cases hc : env.createCertFails = true <;>
    by_cases hp : env.parseFails = true <;>
    simp [GenerateRootCA, createCertificate, hk, hs, hc, hp]

/-- Witness for C6: when RSA key generation fails, both returned values are
nil. -/
theorem generateRootCA_error_propagation_witness :
    (GenerateRootCA testConfig failKeyEnv).1 = none
    ∧ (GenerateRootCA testConfig failKeyEnv).2.1 = none :=
  (generateRootCA_error_propagation testConfig failKeyEnv).2.1 (by decide)

/-- C7: Every file written by `ExportToPEM` is at `certPath` or at `keyPath`;
no other file is ever written. -/
theorem exportToPEM_frame (certBytes : SignedCertificate)
    (privateKey : RSAPrivateKey) (certPath keyPath : String) (env : Env)
    (w : FileWrite)
    (hw : w ∈ (ExportToPEM certBytes privateKey certPath keyPath env).1) :
    w.path = certPath ∨ w.path = keyPath := by
  by_cases h1 : env.writeFileOk certPath = true <;>
    by_cases hm : env.marshalPKCS8Fails = true <;>
    by_cases h2 : env.writeFileOk keyPath = true <;>
    simp [ExportToPEM, pemEncodeToMemory, h1, hm, h2] at hw <;>
    first
      | (rcases hw with rfl | rfl
         · exact Or.inl rfl
         · exact Or.inr rfl)
      | (subst hw; exact Or.inl rfl)

/-- Witness for C7: the first write of the concrete successful export targets
one of the two paths. -/
theorem exportToPEM_frame_witness :
    testWrite.path = "d/ca.crt" ∨ testWrite.path = "d/ca.key" :=
  exportToPEM_frame testCert testKey "d/ca.crt" "d/ca.key" testEnv testWrite
    (by decide)

/-- C8: On every successful run of `ExportToPEM`, the certificate file is
written with mode 0644 and the private key file with mode 0600. -/
theorem exportToPEM_permissions (certBytes : SignedCertificate)
    (privateKey : RSAPrivateKey) (certPath keyPath : String) (env : Env)
    (h : (ExportToPEM certBytes privateKey certPath keyPath env).2 = none) :
    ((ExportToPEM certBytes privateKey certPath keyPath env).1).map
        (fun w => (w.path, w.perm)) =
      [(certPath, 0o644), (keyPath, 0o600)] := by
  by_cases h1 : env.writeFileOk certPath = true <;>
    by_cases hm : env.marshalPKCS8Fails = true <;>
    by_cases h2 : env.writeFileOk keyPath = true <;>
    simp [ExportToPEM, pemEncodeToMemory, h1, hm, h2] at h ⊢

/-- Witness for C8: the concrete successful export writes with modes 0644 and
0600. -/
theorem exportToPEM_permissions_witness :
    ((ExportToPEM testCert testKey "d/ca.crt" "d/ca.key" testEnv).1).map
        (fun w => (w.path, w.perm)) =
      [("d/ca.crt", 0o644), ("d/ca.key", 0o600)] :=
  exportToPEM_permissions testCert testKey "d/ca.crt" "d/ca.key" testEnv (by rfl)

/-- C10: Every invocation of `main` whose resolved configuration has
`ValidityDays ≤ 0` terminates with a fatal error having performed no effect at
all: no key generation, no directory creation and no file write. -/
theorem mainRun_rejects_nonpositive_validity (config : CAConfig)
    (outputDir certFileName keyFileName : String) (env : Env)
    (h : config.validityDays ≤ 0) :
    (mainRun config outputDir certFileName keyFileName env).1 = []
    ∧ (mainRun config outputDir certFileName keyFileName env).2 ≠ none := by
  by_cases hc : config.commonName = "" <;> simp [mainRun, hc, h]

/-- Witness for C10: a configuration with zero validity days produces no
effects and a fatal error. -/
theorem mainRun_rejects_nonpositive_validity_witness :
    (mainRun badConfig "." "ca.crt" "ca.key" testEnv).1 = []
    ∧ (mainRun badConfig "." "ca.crt" "ca.key" testEnv).2 ≠ none :=
  mainRun_rejects_nonpositive_validity badConfig "." "ca.crt" "ca.key" testEnv
    (by decide)
